import Mathlib

/-!
Verification development for the AnySignals rate-limited request-shaping
gateway.  The definitions below are shallow embeddings of the JavaScript
source files (`src/lib/tool-registry.js`, `src/lib/anysite-client.js`,
`src/lib/callback.js`, `src/lib/queue.js`, `src/server.js`, and the BullMQ
worker file).  JavaScript values reaching the embedded functions are
modelled by a small `JSVal` type; machine numbers that matter only as exact
small integers or exact decimal fractions are modelled by `Nat`/`Int`/`Rat`.
-/

namespace AnySignals

/-- A JavaScript value as it can appear in a `params` object.  `undef`
models reading an absent property (`params[p] === undefined`). -/
inductive JSVal where
  | undef
  | null
  | str (s : String)
  | num (q : ℚ)
  | bool (b : Bool)
  | obj
  deriving DecidableEq, Repr

/-- A `params` object: every property read yields a `JSVal`
(absent properties read as `undef`). -/
def Params := String → JSVal

/-- One entry of `TOOL_REGISTRY` in `src/lib/tool-registry.js`. -/
structure ToolConfig where
  endpoint : String
  method : String
  requiredParams : List String
  optionalParams : List String
  descr : String
  deriving DecidableEq, Repr

/-- Registry table `TOOL_REGISTRY` from `src/lib/tool-registry.js`, in source order
(JS object literals preserve insertion order for string keys). -/
def TOOL_REGISTRY : List (String × ToolConfig) :=
  [ ("get_linkedin_profile",
      ⟨"/api/linkedin/profile", "POST", ["user"],
       ["with_experience", "with_education", "with_skills", "timeout"],
       "Get LinkedIn profile data"⟩),
    ("search_linkedin_users",
      ⟨"/api/linkedin/users/search", "POST", ["count"],
       ["keywords", "first_name", "last_name", "title", "company", "location", "industry", "timeout"],
       "Search for LinkedIn users"⟩),
    ("get_linkedin_user_posts",
      ⟨"/api/linkedin/user/posts", "POST", ["urn"],
       ["count", "timeout"],
       "Get posts from a LinkedIn user"⟩),
    ("get_linkedin_company",
      ⟨"/api/linkedin/company", "POST", ["company"],
       ["timeout"],
       "Get LinkedIn company data"⟩),
    ("get_linkedin_company_posts",
      ⟨"/api/linkedin/company/posts", "POST", ["urn"],
       ["count", "timeout"],
       "Get posts from a LinkedIn company"⟩),
    ("search_linkedin_companies",
      ⟨"/api/linkedin/companies/search", "POST", ["count"],
       ["keywords", "location", "industry", "company_size", "timeout"],
       "Search for LinkedIn companies"⟩),
    ("get_linkedin_company_employees",
      ⟨"/api/linkedin/company/employees", "POST", ["company", "count"],
       ["keywords", "title", "timeout"],
       "Get employees of a LinkedIn company"⟩),
    ("search_linkedin_posts",
      ⟨"/api/linkedin/posts/search", "POST", ["count"],
       ["keywords", "sort", "date_posted", "authors", "author_industries", "author_title", "content_type", "mentioned", "timeout"],
       "Search for LinkedIn posts"⟩),
    ("get_linkedin_post",
      ⟨"/api/linkedin/post", "POST", ["urn"],
       ["include_all_document_images", "timeout"],
       "Get a specific LinkedIn post"⟩),
    ("get_linkedin_post_comments",
      ⟨"/api/linkedin/post/comments", "POST", ["urn", "count"],
       ["sort", "timeout"],
       "Get comments on a LinkedIn post"⟩),
    ("get_linkedin_post_reactions",
      ⟨"/api/linkedin/post/reactions", "POST", ["urn", "count"],
       ["timeout"],
       "Get reactions on a LinkedIn post"⟩),
    ("get_linkedin_group",
      ⟨"/api/linkedin/group", "POST", ["group"],
       ["timeout"],
       "Get LinkedIn group data"⟩),
    ("get_instagram_user",
      ⟨"/api/instagram/user", "POST", ["user"],
       ["timeout"],
       "Get Instagram user profile"⟩),
    ("get_instagram_user_posts",
      ⟨"/api/instagram/user/posts", "POST", ["user", "count"],
       ["timeout"],
       "Get posts from an Instagram user"⟩),
    ("get_instagram_post",
      ⟨"/api/instagram/post", "POST", ["post"],
       ["timeout"],
       "Get a specific Instagram post"⟩),
    ("get_instagram_post_comments",
      ⟨"/api/instagram/post/comments", "POST", ["post", "count"],
       ["timeout"],
       "Get comments on an Instagram post"⟩),
    ("get_instagram_post_likes",
      ⟨"/api/instagram/post/likes", "POST", ["post", "count"],
       ["timeout"],
       "Get likes on an Instagram post"⟩),
    ("search_instagram_posts",
      ⟨"/api/instagram/posts/search", "POST", ["query", "count"],
       ["timeout"],
       "Search for Instagram posts"⟩),
    ("get_instagram_user_followers",
      ⟨"/api/instagram/user/followers", "POST", ["user", "count"],
       ["timeout"],
       "Get followers of an Instagram user"⟩),
    ("get_instagram_user_following",
      ⟨"/api/instagram/user/following", "POST", ["user", "count"],
       ["timeout"],
       "Get accounts an Instagram user follows"⟩),
    ("get_twitter_user",
      ⟨"/api/twitter/user", "POST", ["user"],
       ["timeout"],
       "Get Twitter/X user profile"⟩),
    ("get_twitter_user_tweets",
      ⟨"/api/twitter/user/tweets", "POST", ["user", "count"],
       ["timeout"],
       "Get tweets from a Twitter/X user"⟩),
    ("search_twitter_posts",
      ⟨"/api/twitter/posts/search", "POST", ["query", "count"],
       ["timeout"],
       "Search for Twitter/X posts"⟩),
    ("get_twitter_post",
      ⟨"/api/twitter/post", "POST", ["post"],
       ["timeout"],
       "Get a specific Twitter/X post"⟩),
    ("get_twitter_user_followers",
      ⟨"/api/twitter/user/followers", "POST", ["user", "count"],
       ["timeout"],
       "Get followers of a Twitter/X user"⟩),
    ("get_twitter_user_following",
      ⟨"/api/twitter/user/following", "POST", ["user", "count"],
       ["timeout"],
       "Get accounts a Twitter/X user follows"⟩),
    ("search_reddit_posts",
      ⟨"/api/reddit/posts/search", "POST", ["query", "count"],
       ["subreddit", "sort", "time_filter", "timeout"],
       "Search for Reddit posts"⟩),
    ("get_reddit_post",
      ⟨"/api/reddit/post", "POST", ["post_url"],
       ["timeout"],
       "Get a specific Reddit post"⟩),
    ("get_reddit_post_comments",
      ⟨"/api/reddit/post/comments", "POST", ["post_url"],
       ["count", "sort", "timeout"],
       "Get comments on a Reddit post"⟩),
    ("get_reddit_user",
      ⟨"/api/reddit/user", "POST", ["user"],
       ["timeout"],
       "Get Reddit user profile"⟩),
    ("get_reddit_subreddit",
      ⟨"/api/reddit/subreddit", "POST", ["subreddit"],
       ["timeout"],
       "Get subreddit information"⟩),
    ("search_sec_companies",
      ⟨"/sec/search/companies", "POST", [],
       ["forms", "entityName", "locationCodes", "dateRange", "count", "timeout"],
       "Search SEC EDGAR for companies"⟩),
    ("get_sec_document",
      ⟨"/sec/document", "POST", ["url"],
       ["timeout"],
       "Get an SEC document"⟩) ]

/-- Lookup `getTool` from `src/lib/tool-registry.js`: `TOOL_REGISTRY[toolName] || null`. -/
def getTool (toolName : String) : Option ToolConfig :=
  (TOOL_REGISTRY.lookup toolName)

/-- Predicate `toolExists` from `src/lib/tool-registry.js`. -/
def toolExists (toolName : String) : Bool :=
  (getTool toolName).isSome

/-- Listing `listTools` from `src/lib/tool-registry.js`: `Object.keys(TOOL_REGISTRY)`. -/
def listTools : List String :=
  TOOL_REGISTRY.map Prod.fst

/-- The missing-parameter test of `validateParams`:
`params[param] === undefined || params[param] === null || params[param] === ''`. -/
def isMissingVal (v : JSVal) : Bool :=
  v = JSVal.undef || v = JSVal.null || v = JSVal.str ""

/-- Result shape of `validateParams`. -/
structure ValidationResult where
  valid : Bool
  missing : List String
  error : Option String
  deriving DecidableEq, Repr

/-- Validator `validateParams` from `src/lib/tool-registry.js`.  The source's
`for`/`push` loop over `tool.requiredParams` collecting the missing names
is rendered as `List.filter`. -/
def validateParams (toolName : String) (params : Params) : ValidationResult :=
  match getTool toolName with
  | none => ⟨false, [], some ("Unknown tool: " ++ toolName)⟩
  | some tool =>
    let missing := tool.requiredParams.filter (fun p => isMissingVal (params p))
    ⟨missing.length == 0, missing, none⟩

/-- JavaScript `String.prototype.includes`: `sub` occurs as a contiguous
substring of `s`. -/
def jsIncludes (s sub : String) : Bool :=
  (List.range (s.length + 1)).any fun i => sub.toList.isPrefixOf (s.toList.drop i)

/-- The eight category keys of `getToolsByCategory` in
`src/lib/tool-registry.js`. -/
inductive Category where
  | linkedinProfiles | linkedinCompanies | linkedinPosts | linkedinGroups
  | instagram | twitter | reddit | sec
  deriving DecidableEq, Repr

/-- The eight category lists built by `getToolsByCategory`. -/
structure ToolCategories where
  linkedinProfiles : List String
  linkedinCompanies : List String
  linkedinPosts : List String
  linkedinGroups : List String
  instagram : List String
  twitter : List String
  reddit : List String
  sec : List String
  deriving DecidableEq, Repr

/-- Project the list of one category out of a `ToolCategories`. -/
def catListOf (cats : ToolCategories) : Category → List String
  | .linkedinProfiles => cats.linkedinProfiles
  | .linkedinCompanies => cats.linkedinCompanies
  | .linkedinPosts => cats.linkedinPosts
  | .linkedinGroups => cats.linkedinGroups
  | .instagram => cats.instagram
  | .twitter => cats.twitter
  | .reddit => cats.reddit
  | .sec => cats.sec

/-- The body of the `for` loop of `getToolsByCategory`
(`src/lib/tool-registry.js` lines 344-364): push `name` onto the list
selected by the substring cascade. -/
def pushCat (cats : ToolCategories) (name : String) : ToolCategories :=
  if jsIncludes name "linkedin" then
    if jsIncludes name "company" then
      { cats with linkedinCompanies := cats.linkedinCompanies ++ [name] }
    else if jsIncludes name "post" || jsIncludes name "reaction" || jsIncludes name "comment" then
      { cats with linkedinPosts := cats.linkedinPosts ++ [name] }
    else if jsIncludes name "group" then
      { cats with linkedinGroups := cats.linkedinGroups ++ [name] }
    else
      { cats with linkedinProfiles := cats.linkedinProfiles ++ [name] }
  else if jsIncludes name "instagram" then
    { cats with instagram := cats.instagram ++ [name] }
  else if jsIncludes name "twitter" then
    { cats with twitter := cats.twitter ++ [name] }
  else if jsIncludes name "reddit" then
    { cats with reddit := cats.reddit ++ [name] }
  else if jsIncludes name "sec" then
    { cats with sec := cats.sec ++ [name] }
  else cats

/-- Grouping `getToolsByCategory` from `src/lib/tool-registry.js`: iterate the
registry entries in order, pushing each name onto its category list
(the loop reads only the key of each entry). -/
def getToolsByCategory : ToolCategories :=
  listTools.foldl pushCat ⟨[], [], [], [], [], [], [], []⟩

/-- The same substring cascade as `pushCat`, as a per-name category
function (used to state which list a name lands in). -/
def codeCategoryOf (name : String) : Option Category :=
  if jsIncludes name "linkedin" then
    if jsIncludes name "company" then some .linkedinCompanies
    else if jsIncludes name "post" || jsIncludes name "reaction" || jsIncludes name "comment" then
      some .linkedinPosts
    else if jsIncludes name "group" then some .linkedinGroups
    else some .linkedinProfiles
  else if jsIncludes name "instagram" then some .instagram
  else if jsIncludes name "twitter" then some .twitter
  else if jsIncludes name "reddit" then some .reddit
  else if jsIncludes name "sec" then some .sec
  else none

/-- Category assignment exactly as claim C3 words it: `linkedin`+`company`
→ companies; `linkedin`+{`post`|`comment`|`reaction`} → posts; all
remaining `linkedin` names → profiles; otherwise the platform prefix.
(To be compared with `codeCategoryOf`, the cascade of the source.) -/
def claimC3CategoryOf (name : String) : Option Category :=
  if jsIncludes name "linkedin" then
    if jsIncludes name "company" then some .linkedinCompanies
    else if jsIncludes name "post" || jsIncludes name "reaction" || jsIncludes name "comment" then
      some .linkedinPosts
    else some .linkedinProfiles
  else if jsIncludes name "instagram" then some .instagram
  else if jsIncludes name "twitter" then some .twitter
  else if jsIncludes name "reddit" then some .reddit
  else if jsIncludes name "sec" then some .sec
  else none

/-! ### Downstream client (`src/lib/anysite-client.js`) -/

/-- The network error codes tested by `isRetryableError`. -/
inductive ErrCode where
  | ECONNREFUSED | ECONNRESET | ETIMEDOUT | ENOTFOUND | ECONNABORTED
  deriving DecidableEq, Repr

/-- An axios-style error as inspected by `anysite-client.js`:
`error.code`, `error.message`, and the optional `error.response` with its
`status` and `data.message` / `data.error` fields. -/
structure ApiErr where
  code : Option ErrCode
  message : Option String
  responseStatus : Option ℕ
  responseDataMessage : Option String
  responseDataError : Option String
  deriving DecidableEq, Repr

/-- Classifier `isRetryableError` from `src/lib/anysite-client.js` lines 133-163.
`error.response?.status >= 500` is `false` in JS when there is no
response (`undefined >= 500`), hence the `Option` matches. -/
def isRetryableError (e : ApiErr) : Bool :=
  if e.code = some .ECONNREFUSED || e.code = some .ECONNRESET
      || e.code = some .ETIMEDOUT || e.code = some .ENOTFOUND then
    true
  else if e.code = some .ECONNABORTED
      || (match e.message with | some m => jsIncludes m "timeout" | none => false) then
    true
  else if e.responseStatus = some 429 then
    true
  else if (match e.responseStatus with
      | some s => decide (500 ≤ s)
      | none => false) then
    true
  else if (match e.responseStatus with
      | some s => decide (400 ≤ s) && decide (s < 500)
      | none => false) then
    false
  else
    false

/-- First truthy string of a list of optional fields, with a default:
the `if`-chain of `getErrorMessage` (a present empty string is falsy). -/
def firstTruthyStr : List (Option String) → String → String
  | [], d => d
  | none :: rest, d => firstTruthyStr rest d
  | some s :: rest, d => if s = "" then firstTruthyStr rest d else s

/-- Extractor `getErrorMessage` from `src/lib/anysite-client.js`. -/
def getErrorMessage (e : ApiErr) : String :=
  firstTruthyStr [e.responseDataMessage, e.responseDataError, e.message] "Unknown error"

/-- The error object thrown by `formatError`: message, `endpoint` and
`status` properties. -/
structure FormattedError where
  message : String
  endpoint : String
  status : Option ℕ
  deriving DecidableEq, Repr

/-- Formatter `formatError` from `src/lib/anysite-client.js`. -/
def formatError (e : ApiErr) (endpoint : String) : FormattedError :=
  { message := "AnySite API error: " ++ getErrorMessage e,
    endpoint := endpoint,
    status := e.responseStatus }

/-- Observable behaviour of one `request` call: the value returned or the
error thrown, how many HTTP attempts were issued, and after which attempt
numbers the client slept before the next attempt. -/
structure RequestTrace (α : Type) where
  result : Except FormattedError α
  attemptsMade : ℕ
  sleeps : List ℕ
  deriving Repr

/-- The `for` loop of `request` (`src/lib/anysite-client.js` lines 72-125),
with the downstream's per-attempt outcome supplied by `responses`
(1-indexed by attempt number).  `fuel` counts the remaining loop
iterations (`maxRetries - attempt + 1`).  Note that the `catch` branch for
a non-retryable error only logs: nothing leaves the loop, so the next
iteration issues another HTTP attempt regardless of retryability
(`shouldRetry` decides only whether the client sleeps first).  When the
loop exhausts with `lastError = null` (only possible for `maxRetries ≤ 0`)
the source would throw a `TypeError` dereferencing `null`; that unreachable
arm is a distinguished error value here. -/
def requestGo (endpoint : String) (responses : ℕ → Except ApiErr α) (maxRetries : ℕ) :
    ℕ → ℕ → Option ApiErr → RequestTrace α
  | 0, attempt, last =>
      { result := .error (match last with
          | some e => formatError e endpoint
          | none => ⟨"TypeError: Cannot read properties of null", endpoint, none⟩),
        attemptsMade := attempt - 1,
        sleeps := [] }
  | fuel + 1, attempt, _ =>
      match responses attempt with
      | .ok d => { result := .ok d, attemptsMade := attempt, sleeps := [] }
      | .error e =>
          let shouldRetry := isRetryableError e && attempt < maxRetries
          let rest := requestGo endpoint responses maxRetries fuel (attempt + 1) (some e)
          { result := rest.result,
            attemptsMade := rest.attemptsMade,
            sleeps := if shouldRetry then attempt :: rest.sleeps else rest.sleeps }

/-- Entry point `request` from `src/lib/anysite-client.js`: run the attempt loop from
attempt 1 with `maxRetries` iterations available. -/
def request (endpoint : String) (maxRetries : ℕ) (responses : ℕ → Except ApiErr α) :
    RequestTrace α :=
  requestGo endpoint responses maxRetries maxRetries 1 none

/-- A response-less HTTP 400 axios error (as axios raises for a 4xx
without special fields). -/
def err400 : ApiErr :=
  { code := none,
    message := some "Request failed with status code 400",
    responseStatus := some 400,
    responseDataMessage := none,
    responseDataError := none }

/-- Per-attempt downstream outcomes for the C1 failing input: attempt 1
yields HTTP 400, every later attempt succeeds. -/
def c1Responses : ℕ → Except ApiErr JSVal := fun n =>
  if n = 1 then .error err400 else .ok (JSVal.str "profile-data")

/-- All-attempts-400 downstream outcomes for the C1 failing input. -/
def c1AllFail : ℕ → Except ApiErr JSVal := fun _ => .error err400

/-! ### Backoff delay (`getRetryDelay`, `src/lib/anysite-client.js`) -/

/-- The pre-jitter delay of `getRetryDelay`:
`Math.min(baseDelay * Math.pow(2, attempt - 1), maxDelay)` with
`baseDelay = 1000`, `maxDelay = 30000`. -/
def backoffBase (attempt : ℕ) : ℚ :=
  min (1000 * 2 ^ (attempt - 1)) 30000

/-- Backoff `getRetryDelay` from `src/lib/anysite-client.js` lines 170-177, with
`Math.random()` made explicit as the argument `rand ∈ [0, 1)`:
jitter is `delay * 0.1 * (rand * 2 - 1)` and the sum is rounded
(`Math.round x = ⌊x + 1/2⌋`, which is Mathlib's `round`). -/
def getRetryDelay (attempt : ℕ) (rand : ℚ) : ℤ :=
  round (backoffBase attempt + backoffBase attempt * (1/10) * (rand * 2 - 1))

/-! ### Worker (`processJob` / `handleJobFailure` in the worker file) and
the store surface it uses (`src/lib/queue.js`). -/

/-- The `job.data` payload enqueued by the server. -/
structure JobData where
  tool : String
  params : Params
  rowId : String
  callbackUrl : Option String
  batchId : Option String

/-- A BullMQ job as read by the worker: its id, data, and retry counters
(`job.attemptsMade`, `job.opts.attempts`). -/
structure Job where
  id : String
  data : JobData
  attemptsMade : ℕ
  optsAttempts : ℕ

/-- A stored result record: the completed shape
`{jobId, rowId, tool, data, completedAt}` or the failed shape
`{jobId, rowId, tool, status: 'failed', error, failedAt}`. -/
inductive ResultBody where
  | completed (data : JSVal)
  | failed (error : String)
  deriving DecidableEq, Repr

/-- The fields common to both result-record shapes. -/
structure ResultRecord where
  jobId : String
  rowId : String
  tool : String
  body : ResultBody
  deriving DecidableEq, Repr

/-- The Redis key built by `storeResult` (`src/lib/queue.js` lines 246-248). -/
def resultKey (jobId : String) (batchId : Option String) : String :=
  match batchId with
  | some b => "anysignals:result:" ++ jobId ++ ":" ++ b
  | none => "anysignals:result:" ++ jobId

/-- The store state the worker mutates: result records (in write order),
the per-batch `completed` and `failed` counters
(`hincrby` in `updateBatchProgress`), and the log stream. -/
structure Store where
  results : List (String × ResultRecord)
  batchCompleted : String → ℕ
  batchFailed : String → ℕ
  log : List String

/-- Write `storeResult` from `src/lib/queue.js`: `setex` of the record under
`resultKey`. -/
def storeResult (st : Store) (jobId : String) (batchId : Option String)
    (rec : ResultRecord) : Store :=
  { st with results := st.results ++ [(resultKey jobId batchId, rec)] }

/-- Increment `updateBatchProgress(batchId, 'completed')` from `src/lib/queue.js`. -/
def updateBatchCompleted (st : Store) (batchId : String) : Store :=
  { st with batchCompleted := fun b =>
      if b = batchId then st.batchCompleted b + 1 else st.batchCompleted b }

/-- Increment `updateBatchProgress(batchId, 'failed')` from `src/lib/queue.js`. -/
def updateBatchFailed (st : Store) (batchId : String) : Store :=
  { st with batchFailed := fun b =>
      if b = batchId then st.batchFailed b + 1 else st.batchFailed b }

/-- The outcome reported by `sendCallback` / `sendCompletedCallback` /
`sendFailedCallback` (`src/lib/callback.js`):
`{ success, attempts, error?, skipped? }`. -/
structure CallbackOutcome where
  success : Bool
  attempts : ℕ
  error : Option String
  skipped : Bool

/-- The store fields claim C5 is about: result records and both batch
counters (everything but the log). -/
def storeData (st : Store) :
    List (String × ResultRecord) × (String → ℕ) × (String → ℕ) :=
  (st.results, st.batchCompleted, st.batchFailed)

/-- Processor `processJob` from the worker file (lines 38-107).  The downstream
call's outcome (`anysiteClient.request`, which the worker awaits) is the
parameter `apiResult`; the callback dispatch outcome
(`callback.sendCompletedCallback`) is the parameter `cbOutcome`.  The
returned `Except` is the value returned to BullMQ (`.ok`) or the exception
thrown (`.error`), which is what decides job-level retry. -/
def processJob (job : Job) (apiResult : Except FormattedError JSVal)
    (cbOutcome : CallbackOutcome) (st : Store) : Store × Except String JSVal :=
  match getTool job.data.tool with
  | none => (st, .error ("Unknown tool: " ++ job.data.tool))
  | some _config =>
    let validation := validateParams job.data.tool job.data.params
    if validation.valid = false then
      (st, .error ("Missing required parameters: "
        ++ String.intercalate ", " validation.missing))
    else
      match apiResult with
      | .error e => (st, .error e.message)
      | .ok response =>
        let st1 := storeResult st job.id job.data.batchId
          ⟨job.id, job.data.rowId, job.data.tool, .completed response⟩
        let st2 := match job.data.batchId with
          | some b => updateBatchCompleted st1 b
          | none => st1
        let st3 := match job.data.callbackUrl with
          | some _ =>
            if cbOutcome.success = false then
              { st2 with log := st2.log ++ ["Callback delivery failed"] }
            else st2
          | none => st2
        (st3, .ok response)

/-- Handler `handleJobFailure` from the worker file (lines 114-151), run by the
worker's `failed` event handler.  `isFinalAttempt` is
`job.attemptsMade >= job.opts.attempts`.  The failure-callback outcome
`cbOutcome` is awaited but never inspected. -/
def handleJobFailure (job : Job) (errMsg : String)
    (cbOutcome : CallbackOutcome) (st : Store) : Store :=
  let isFinalAttempt := job.optsAttempts ≤ job.attemptsMade
  let st0 := { st with log := st.log ++ ["Job processing failed"] }
  if isFinalAttempt then
    let st1 := match job.data.batchId with
      | some b => updateBatchFailed st0 b
      | none => st0
    storeResult st1 job.id job.data.batchId
      ⟨job.id, job.data.rowId, job.data.tool, .failed errMsg⟩
  else st0

/-! ### Event traces of the worker, for the temporal ordering claim. -/

/-- The externally visible store/dispatch events of one worker step, in
program order. -/
inductive WEvent where
  | resultWrite (key : String) (rec : ResultRecord)
  | batchIncrement (field : String)
  | callbackAttempt (n : ℕ)
  | logged
  deriving DecidableEq, Repr

/-- Is the event a result-record write? -/
def isResultWrite : WEvent → Bool
  | .resultWrite _ _ => true
  | _ => false

/-- Is the event an HTTP attempt of the callback dispatcher? -/
def isCallbackAttempt : WEvent → Bool
  | .callbackAttempt _ => true
  | _ => false

/-- The attempts `1..k` issued by `sendCallback`
(`src/lib/callback.js` loop, `X-AnySignals-Attempt` header). -/
def callbackAttemptEvents (k : ℕ) : List WEvent :=
  (List.range k).map (fun i => .callbackAttempt (i + 1))

/-- Events of the success tail of `processJob` (worker file lines 79-106),
in program order: store the result, then increment the batch `completed`
counter when the job belongs to a batch, then run the callback attempts
when a `callbackUrl` is set (`cbAttempts` many HTTP attempts inside
`sendCompletedCallback`). -/
def processJobSuccessEvents (job : Job) (response : JSVal) (cbAttempts : ℕ) :
    List WEvent :=
  [WEvent.resultWrite (resultKey job.id job.data.batchId)
      ⟨job.id, job.data.rowId, job.data.tool, .completed response⟩]
  ++ (match job.data.batchId with
      | some _ => [WEvent.batchIncrement "completed"]
      | none => [])
  ++ (match job.data.callbackUrl with
      | some _ => callbackAttemptEvents cbAttempts
      | none => [])

/-- Events of `handleJobFailure` (worker file lines 114-151), in program
order: the error log, then — only on the final attempt — the batch
`failed` increment, the result write, and the failure-callback attempts. -/
def handleJobFailureEvents (job : Job) (errMsg : String) (cbAttempts : ℕ) :
    List WEvent :=
  WEvent.logged ::
  (if job.optsAttempts ≤ job.attemptsMade then
    (match job.data.batchId with
      | some _ => [WEvent.batchIncrement "failed"]
      | none => [])
    ++ [WEvent.resultWrite (resultKey job.id job.data.batchId)
        ⟨job.id, job.data.rowId, job.data.tool, .failed errMsg⟩]
    ++ (match job.data.callbackUrl with
        | some _ => callbackAttemptEvents cbAttempts
        | none => [])
  else [])

/-- The worker-side event trace of one job's whole life under BullMQ
retry: attempts `1..n-1` fail (each runs `handleJobFailure` with
`attemptsMade = i < maxA`, hence non-final), and attempt `n` either
succeeds (`processJob` runs its success tail) or fails
(`handleJobFailure` with `attemptsMade = n`).  `errMsg i` and `cb i` are
the error message and callback attempt count of attempt `i`. -/
def jobLifeEvents (base : Job) (maxA n : ℕ) (lastOk : Bool) (response : JSVal)
    (errMsg : ℕ → String) (cb : ℕ → ℕ) : List WEvent :=
  ((List.range (n - 1)).map (fun i =>
      handleJobFailureEvents
        { base with attemptsMade := i + 1, optsAttempts := maxA }
        (errMsg (i + 1)) (cb (i + 1)))).flatten
  ++ (if lastOk then
        processJobSuccessEvents base response (cb n)
      else
        handleJobFailureEvents
          { base with attemptsMade := n, optsAttempts := maxA }
          (errMsg n) (cb n))

/-! ### HTTP ingress (`src/server.js`) -/

/-- Default of `MAX_BATCH_SIZE` (`src/server.js` line 23). -/
def defaultMaxBatchSize : ℕ := 2000

/-- A concrete params object used to instantiate the ingress handlers. -/
def sampleParams : Params := fun _ => JSVal.str "u"

/-- Default of `DRIP_INTERVAL_MS` (`src/server.js` line 24). -/
def defaultDripIntervalMs : ℕ := 10000

/-- Ceiling division `Math.ceil(a / b)` for the natural quantities the server divides. -/
def jsCeilDiv (a b : ℕ) : ℤ :=
  ⌈(a : ℚ) / (b : ℚ)⌉

/-- The five counts of `getQueueStats` (`src/lib/queue.js`). -/
structure QueueStats where
  waiting : ℕ
  active : ℕ
  completed : ℕ
  failed : ℕ
  delayed : ℕ
  deriving DecidableEq, Repr

/-- Return shape of `getQueuePosition`. -/
structure QueuePosition where
  position : ℕ
  estimatedWaitSeconds : ℤ
  deriving DecidableEq, Repr

/-- Estimator `getQueuePosition` from `src/lib/queue.js` lines 272-281:
`position = waiting + active + 1`,
`estimatedWaitSeconds = Math.ceil(position * dripInterval / 1000)`. -/
def getQueuePosition (stats : QueueStats) (dripIntervalMs : ℕ) : QueuePosition :=
  { position := stats.waiting + stats.active + 1,
    estimatedWaitSeconds :=
      jsCeilDiv ((stats.waiting + stats.active + 1) * dripIntervalMs) 1000 }

/-- Response of `POST /api/batch` as far as the claims observe it: HTTP
status, how many jobs this request enqueued, and the estimate field of the
202 body. -/
structure BatchResponse where
  status : ℕ
  jobsEnqueued : ℕ
  estimatedCompletionSeconds : Option ℤ
  deriving DecidableEq, Repr

/-- The `POST /api/batch` handler (`src/server.js` lines 163-216).
`tool = none` / `records = none` stand for a body failing the Joi schema's
required fields (each record being an object is enforced here by the
`Params` type); the schema's `min(1).max(maxBatchSize)` bounds on
`records` reject out-of-range lengths with 400 before anything is
enqueued; an unknown tool is also a 400; otherwise `addBatch` enqueues one
job per record and the 202 body carries
`estimatedCompletionSeconds = Math.ceil(records.length * D / 1000)`. -/
def handleBatch (maxBatchSize dripIntervalMs : ℕ) (tool : Option String)
    (records : Option (List Params)) : BatchResponse :=
  match tool, records with
  | some t, some rs =>
    if rs.length < 1 ∨ maxBatchSize < rs.length then
      ⟨400, 0, none⟩
    else if toolExists t = false then
      ⟨400, 0, none⟩
    else
      ⟨202, rs.length, some (jsCeilDiv (rs.length * dripIntervalMs) 1000)⟩
  | _, _ => ⟨400, 0, none⟩

/-- Response of `POST /api/single` as far as the claims observe it. -/
structure SingleResponse where
  status : ℕ
  position : Option ℕ
  estimatedWaitSeconds : Option ℤ
  deriving DecidableEq, Repr

/-- The `POST /api/single` handler (`src/server.js` lines 222-278):
after schema validation and the tool check, the 202 body carries the
`position` and `estimatedWaitSeconds` of `getQueuePosition` evaluated on
the queue counts at the time of the request. -/
def handleSingle (dripIntervalMs : ℕ) (stats : QueueStats)
    (tool : Option String) (params : Option Params) : SingleResponse :=
  match tool, params with
  | some t, some _ =>
    if toolExists t = false then
      ⟨400, none, none⟩
    else
      let q := getQueuePosition stats dripIntervalMs
      ⟨202, some q.position, some q.estimatedWaitSeconds⟩
  | _, _ => ⟨400, none, none⟩

/-! ### Drip scheduler (worker configuration) -/

/-- Modelled from the spec: the drip pacing itself is implemented by the
external BullMQ library from the configuration the worker file passes
(`limiter { max: 1, duration: DRIP_INTERVAL_MS }`, `concurrency: 1`), so
the scheduling loop is not repository code under `src/`.  Following the
spec's words — "A token-bucket with capacity 1 refilled one token per `D`
is the canonical implementation" — the k-th job (k ≥ 1) starts as soon as
both the drip token is available (`D` elapsed since the previous start)
and the previous job has finished; `dur k` is the execution duration of
the k-th job and `t0` the start of job 0. -/
def dripStart (D t0 : ℕ) (dur : ℕ → ℕ) : ℕ → ℕ
  | 0 => t0
  | k + 1 => max (dripStart D t0 dur k + D) (dripStart D t0 dur k + dur k)

/-- Finish time of the k-th job under the drip scheduler model. -/
def dripFinish (D t0 : ℕ) (dur : ℕ → ℕ) (k : ℕ) : ℕ :=
  dripStart D t0 dur k + dur k

/-! ### Authentication middleware (`src/server.js`) -/

/-- What `authenticateRequest` does with a request. -/
inductive AuthDecision where
  | next
  | unauthorized401
  | forbidden403
  deriving DecidableEq, Repr

/-- JS truthiness of an optional string (an absent value and the empty
string are falsy). -/
def jsTruthyStr : Option String → Bool
  | none => false
  | some s => !(s == "")

/-- Middleware `authenticateRequest` from `src/server.js` lines 88-116:
`/api/health` always passes; with no configured `WEBHOOK_SECRET`
(`if (!WEBHOOK_SECRET)`) the middleware calls `next()`; otherwise a
missing/empty `x-webhook-secret` header draws 401 and a mismatched one
draws 403. -/
def authenticateRequest (webhookSecret : Option String) (path : String)
    (providedSecret : Option String) : AuthDecision :=
  if path = "/api/health" then .next
  else if jsTruthyStr webhookSecret = false then .next
  else if jsTruthyStr providedSecret = false then .unauthorized401
  else if providedSecret ≠ webhookSecret then .forbidden403
  else .next

end AnySignals

namespace AnySignals

/-! ### Helper lemmas -/

lemma catListOf_pushCat (cats : ToolCategories) (n : String) (c : Category) :
    catListOf (pushCat cats n) c
      = catListOf cats c ++ (if codeCategoryOf n = some c then [n] else []) := by
  unfold pushCat codeCategoryOf
  split_ifs <;> cases c <;> simp_all [catListOf]

lemma mem_catListOf_foldl (names : List String) (init : ToolCategories)
    (c : Category) (x : String) :
    x ∈ catListOf (names.foldl pushCat init) c
      ↔ x ∈ catListOf init c ∨ (x ∈ names ∧ codeCategoryOf x = some c) := by
  induction names generalizing init with
  | nil => simp
  | cons n ns ih =>
    rw [List.foldl_cons, ih, catListOf_pushCat]
    by_cases h : codeCategoryOf n = some c
    · simp only [h, if_pos, List.mem_append, List.mem_singleton, List.mem_cons,
        List.not_mem_nil, or_false]
      constructor
      · rintro ((hx | rfl) | hx)
        · exact Or.inl hx
        · exact Or.inr ⟨Or.inl rfl, h⟩
        · exact Or.inr ⟨Or.inr hx.1, hx.2⟩
      · rintro (hx | ⟨(rfl | hx), hc⟩)
        · exact Or.inl (Or.inl hx)
        · exact Or.inl (Or.inr rfl)
        · exact Or.inr ⟨hx, hc⟩
    · simp only [h, if_neg, List.append_nil, List.mem_cons, not_false_iff]
      constructor
      · rintro (hx | hx)
        · exact Or.inl hx
        · exact Or.inr ⟨Or.inr hx.1, hx.2⟩
      · rintro (hx | ⟨(rfl | hx), hc⟩)
        · exact Or.inl hx
        · exact absurd hc h
        · exact Or.inr ⟨hx, hc⟩

lemma handleJobFailureEvents_nonfinal (job : Job) (errMsg : String) (cb : ℕ)
    (h : job.attemptsMade < job.optsAttempts) :
    handleJobFailureEvents job errMsg cb = [WEvent.logged] := by
  unfold handleJobFailureEvents
  rw [if_neg (by omega)]

lemma countP_callbackAttemptEvents_resultWrite (k : ℕ) :
    (callbackAttemptEvents k).countP (fun e => isResultWrite e) = 0 := by
  rw [List.countP_eq_zero]
  intro e he
  rcases List.mem_map.mp he with ⟨i, _, rfl⟩
  simp [isResultWrite]

lemma countP_replicate_logged (k : ℕ) (p : WEvent → Bool)
    (hp : p WEvent.logged = false) :
    (List.replicate k WEvent.logged).countP p = 0 :=
  List.countP_eq_zero.mpr (fun a ha => by
    rw [List.eq_of_mem_replicate ha, hp]; exact Bool.false_ne_true)

lemma flatten_replicate_singleton (k : ℕ) (x : WEvent) :
    (List.replicate k [x]).flatten = List.replicate k x := by
  induction k with
  | zero => rfl
  | succ m ih => simp [List.replicate_succ, ih]

lemma jobLifeEvents_failures_head (base : Job) (maxA n : ℕ) (errMsg : ℕ → String)
    (cb : ℕ → ℕ) (h : n ≤ maxA) :
    ((List.range (n - 1)).map (fun i =>
        handleJobFailureEvents
          { base with attemptsMade := i + 1, optsAttempts := maxA }
          (errMsg (i + 1)) (cb (i + 1)))).flatten
      = List.replicate (n - 1) WEvent.logged := by
  have hmap : ∀ i ∈ List.range (n - 1),
      handleJobFailureEvents
        { base with attemptsMade := i + 1, optsAttempts := maxA }
        (errMsg (i + 1)) (cb (i + 1)) = [WEvent.logged] := by
    intro i hi
    simp only [List.mem_range] at hi
    apply handleJobFailureEvents_nonfinal
    show i + 1 < maxA
    omega
  rw [List.map_congr_left hmap]
  have : List.map (fun (_ : ℕ) => [WEvent.logged]) (List.range (n - 1))
      = List.replicate (n - 1) [WEvent.logged] := by
    rw [List.map_const']
    simp
  rw [this, flatten_replicate_singleton]

lemma final_failure_split (job : Job) (errMsg : String) (cbk : ℕ)
    (h : job.optsAttempts ≤ job.attemptsMade) :
    ∃ pre key rec post,
      handleJobFailureEvents job errMsg cbk
        = pre ++ WEvent.resultWrite key rec :: post
      ∧ pre.countP (fun e => isResultWrite e) = 0
      ∧ post.countP (fun e => isResultWrite e) = 0
      ∧ pre.countP (fun e => isCallbackAttempt e) = 0 := by
  unfold handleJobFailureEvents
  rw [if_pos h]
  cases hb : job.data.batchId with
  | none =>
    cases hc : job.data.callbackUrl with
    | none =>
      exact ⟨[WEvent.logged], _, _, [], rfl, rfl, rfl, rfl⟩
    | some u =>
      exact ⟨[WEvent.logged], _, _, callbackAttemptEvents cbk, rfl, rfl,
        countP_callbackAttemptEvents_resultWrite cbk, rfl⟩
  | some b =>
    cases hc : job.data.callbackUrl with
    | none =>
      exact ⟨[WEvent.logged, WEvent.batchIncrement "failed"], _, _, [],
        rfl, rfl, rfl, rfl⟩
    | some u =>
      exact ⟨[WEvent.logged, WEvent.batchIncrement "failed"], _, _,
        callbackAttemptEvents cbk, rfl, rfl,
        countP_callbackAttemptEvents_resultWrite cbk, rfl⟩

lemma success_split (job : Job) (response : JSVal) (cbk : ℕ) :
    ∃ key rec post,
      processJobSuccessEvents job response cbk
        = WEvent.resultWrite key rec :: post
      ∧ post.countP (fun e => isResultWrite e) = 0 := by
  unfold processJobSuccessEvents
  cases hb : job.data.batchId with
  | none =>
    cases hc : job.data.callbackUrl with
    | none => exact ⟨_, _, [], rfl, rfl⟩
    | some u =>
      exact ⟨_, _, callbackAttemptEvents cbk, rfl,
        countP_callbackAttemptEvents_resultWrite cbk⟩
  | some b =>
    cases hc : job.data.callbackUrl with
    | none =>
      exact ⟨_, _, [WEvent.batchIncrement "completed"], rfl, rfl⟩
    | some u =>
      refine ⟨_, _, WEvent.batchIncrement "completed" :: callbackAttemptEvents cbk,
        rfl, ?_⟩
      rw [show (WEvent.batchIncrement "completed" :: callbackAttemptEvents cbk).countP
            (fun e => isResultWrite e)
          = (callbackAttemptEvents cbk).countP (fun e => isResultWrite e) from by
        rw [List.countP_cons]; simp [isResultWrite]]
      exact countP_callbackAttemptEvents_resultWrite cbk


/-- C2: for every tool in the registry, `validateParams` reports as
`missing` exactly the required parameter names whose value in `params` is
absent (`undefined`), `null`, or the empty string, and `valid` holds iff
`missing` is empty. -/
theorem C2_validateParams_missing_spec (toolName : String) (params : Params)
    (cfg : ToolConfig) (h : getTool toolName = some cfg) :
    (validateParams toolName params).missing
      = cfg.requiredParams.filter (fun p => isMissingVal (params p))
    ∧ ((validateParams toolName params).valid = true
      ↔ (validateParams toolName params).missing = []) := by
  unfold validateParams
  rw [h]
  exact ⟨rfl, by simp [List.length_eq_zero]⟩

/-- Witness for C2 at the tool `get_linkedin_profile` with an empty params
object: the single required parameter `user` is reported missing. -/
theorem C2_validateParams_missing_spec_witness :
    (validateParams "get_linkedin_profile" (fun _ => JSVal.undef)).missing
      = (ToolConfig.mk "/api/linkedin/profile" "POST" ["user"]
          ["with_experience", "with_education", "with_skills", "timeout"]
          "Get LinkedIn profile data").requiredParams.filter
          (fun p => isMissingVal ((fun _ => JSVal.undef) p))
    ∧ ((validateParams "get_linkedin_profile" (fun _ => JSVal.undef)).valid = true
      ↔ (validateParams "get_linkedin_profile" (fun _ => JSVal.undef)).missing = []) :=
  C2_validateParams_missing_spec "get_linkedin_profile" (fun _ => JSVal.undef)
    _ (by decide)

/-- C3 counterexample: `get_linkedin_group` contains `linkedin` and none of
`company`, `post`, `comment`, `reaction`, so under the claim's cascade it
would land in `linkedin-profiles`; `getToolsByCategory` instead places it
in `linkedin-groups` and not in `linkedin-profiles`. -/
theorem C3_counterexample_group :
    claimC3CategoryOf "get_linkedin_group" = some Category.linkedinProfiles
    ∧ "get_linkedin_group" ∈ listTools
    ∧ "get_linkedin_group" ∉ catListOf getToolsByCategory Category.linkedinProfiles
    ∧ "get_linkedin_group" ∈ catListOf getToolsByCategory Category.linkedinGroups := by
  decide

/-- C3 (amended): `getToolsByCategory` assigns every registry tool name by
substring match in this order: `linkedin`+`company` → linkedin-companies;
`linkedin`+{`post`|`comment`|`reaction`} → linkedin-posts;
`linkedin`+`group` → linkedin-groups; all remaining `linkedin` names →
linkedin-profiles; other names go to the category of their platform prefix
(instagram, twitter, reddit, sec): a name is in a category list iff it is a
registry name and the cascade (`codeCategoryOf`) selects that category. -/
theorem C3_getToolsByCategory_assignment (c : Category) (x : String) :
    x ∈ catListOf getToolsByCategory c
      ↔ x ∈ listTools ∧ codeCategoryOf x = some c := by
  rw [getToolsByCategory, mem_catListOf_foldl]
  cases c <;> simp [catListOf]

/-- C1: evaluation at the failing input.  An HTTP 400 (non-429) error is
classified non-retryable, yet after it fails attempt 1 the `request` loop
issues attempt 2 anyway (it merely skips the sleep): with a 400 on attempt
1 and success on attempt 2, the call makes 2 HTTP attempts, never sleeps,
and returns the attempt-2 data instead of failing; with a 400 on every
attempt and `maxRetries = 3`, the call makes 3 HTTP attempts before
throwing the structured error with the endpoint and status 400. -/
theorem C1_nonretryable_400_still_retried :
    isRetryableError err400 = false
    ∧ (request "/api/linkedin/profile" 3 c1Responses).attemptsMade = 2
    ∧ (request "/api/linkedin/profile" 3 c1Responses).sleeps = []
    ∧ (request "/api/linkedin/profile" 3 c1Responses).result
        = .ok (JSVal.str "profile-data")
    ∧ (request "/api/linkedin/profile" 3 c1AllFail).attemptsMade = 3
    ∧ (request "/api/linkedin/profile" 3 c1AllFail).result
        = .error { message := "AnySite API error: Request failed with status code 400",
                   endpoint := "/api/linkedin/profile",
                   status := some 400 } :=
  ⟨rfl, rfl, rfl, rfl, rfl, rfl⟩

/-- C4: for every attempt number `n ≥ 1` and every sampled `rand ∈ [0,1]`,
the retry delay is `d = min(1000 · 2^(n-1), 30000)` with uniform ±10%
jitter: the returned (rounded) delay lies within 1/2 of the interval
`[0.9·d, 1.1·d]`, where `d = backoffBase n`. -/
theorem C4_getRetryDelay_bounds (n : ℕ) (r : ℚ)
    (hn : 1 ≤ n) (h0 : 0 ≤ r) (h1 : r ≤ 1) :
    backoffBase n = min (1000 * 2 ^ (n - 1)) 30000
    ∧ (9/10) * backoffBase n - 1/2 ≤ ((getRetryDelay n r : ℤ) : ℚ)
    ∧ ((getRetryDelay n r : ℤ) : ℚ) ≤ (11/10) * backoffBase n + 1/2 := by
  refine ⟨rfl, ?_, ?_⟩ <;>
  · have hd : (0 : ℚ) ≤ backoffBase n :=
      le_min (by positivity) (by norm_num)
    have hx : |backoffBase n * (1/10) * (r * 2 - 1)| ≤ backoffBase n * (1/10) := by
      rw [abs_mul]
      have h2 : |r * 2 - 1| ≤ 1 := by
        rw [abs_le]; constructor <;> linarith
      have h3 : |backoffBase n * (1/10)| = backoffBase n * (1/10) := by
        rw [abs_of_nonneg]; positivity
      calc |backoffBase n * (1/10)| * |r * 2 - 1|
          ≤ |backoffBase n * (1/10)| * 1 := by
            exact mul_le_mul_of_nonneg_left h2 (abs_nonneg _)
        _ = backoffBase n * (1/10) := by rw [mul_one, h3]
    have hround : |(backoffBase n + backoffBase n * (1/10) * (r * 2 - 1))
        - ((round (backoffBase n + backoffBase n * (1/10) * (r * 2 - 1)) : ℤ) : ℚ)| ≤ 1/2 :=
      abs_sub_round _
    have h4 := abs_le.mp hx
    have h5 := abs_le.mp hround
    rw [show ((getRetryDelay n r : ℤ) : ℚ)
        = ((round (backoffBase n + backoffBase n * (1/10) * (r * 2 - 1)) : ℤ) : ℚ) from rfl]
    obtain ⟨h4a, h4b⟩ := h4
    obtain ⟨h5a, h5b⟩ := h5
    linarith

/-- Witness for C4 at `n = 3`, `r = 1`: `d = 4000`, jitter `+400`, the
returned delay is within the stated bounds. -/
theorem C4_getRetryDelay_bounds_witness :
    backoffBase 3 = min (1000 * 2 ^ (3 - 1)) 30000
    ∧ (9/10) * backoffBase 3 - 1/2 ≤ ((getRetryDelay 3 1 : ℤ) : ℚ)
    ∧ ((getRetryDelay 3 1 : ℤ) : ℚ) ≤ (11/10) * backoffBase 3 + 1/2 :=
  C4_getRetryDelay_bounds 3 1 (by norm_num) (by norm_num) (by norm_num)

/-- C5: the callback dispatch outcome (success, failure after retries, or
skipped) never changes what the worker persists or returns: for any two
outcomes, `processJob` leaves identical result records and batch counters
and returns the identical value/exception to BullMQ (so a failed callback
cannot fail a completed job or trigger a job-level retry), and
`handleJobFailure` (which never inspects the outcome) produces the
identical store. -/
theorem C5_callback_outcome_frame (job : Job)
    (apiResult : Except FormattedError JSVal) (errMsg : String)
    (o1 o2 : CallbackOutcome) (st : Store) :
    storeData (processJob job apiResult o1 st).1
      = storeData (processJob job apiResult o2 st).1
    ∧ (processJob job apiResult o1 st).2 = (processJob job apiResult o2 st).2
    ∧ handleJobFailure job errMsg o1 st = handleJobFailure job errMsg o2 st := by
  refine ⟨?_, ?_, rfl⟩
  · unfold processJob
    cases getTool job.data.tool with
    | none => rfl
    | some cfg =>
      dsimp only
      by_cases hv : (validateParams job.data.tool job.data.params).valid = false
      · rw [if_pos hv, if_pos hv]
      · rw [if_neg hv, if_neg hv]
        cases apiResult with
        | error e => rfl
        | ok response =>
          dsimp only
          cases job.data.callbackUrl with
          | none => rfl
          | some u =>
            dsimp only
            split_ifs <;> rfl
  · unfold processJob
    cases getTool job.data.tool with
    | none => rfl
    | some cfg =>
      dsimp only
      by_cases hv : (validateParams job.data.tool job.data.params).valid = false
      · rw [if_pos hv, if_pos hv]
      · rw [if_neg hv, if_neg hv]
        cases apiResult with
        | error e => rfl
        | ok response => rfl

/-- C6: every job that reaches a terminal state (last attempt succeeded,
or failed on attempt `n = maxA`) produces a worker event trace with
exactly one result-record write, and that write precedes every callback
HTTP attempt. -/
theorem C6_one_result_write_before_callbacks
    (base : Job) (maxA n : ℕ) (lastOk : Bool) (response : JSVal)
    (errMsg : ℕ → String) (cb : ℕ → ℕ)
    (h1 : 1 ≤ n) (h2 : n ≤ maxA) (hterm : lastOk = true ∨ n = maxA) :
    ∃ pre key rec post,
      jobLifeEvents base maxA n lastOk response errMsg cb
        = pre ++ WEvent.resultWrite key rec :: post
      ∧ pre.countP (fun e => isResultWrite e) = 0
      ∧ post.countP (fun e => isResultWrite e) = 0
      ∧ pre.countP (fun e => isCallbackAttempt e) = 0 := by
  unfold jobLifeEvents
  rw [jobLifeEvents_failures_head base maxA n errMsg cb h2]
  cases lastOk with
  | true =>
    rw [if_pos rfl]
    obtain ⟨key, rec, post, hsplit, hpost⟩ := success_split base response (cb n)
    refine ⟨List.replicate (n - 1) WEvent.logged, key, rec, post, ?_, ?_, hpost, ?_⟩
    · rw [hsplit]
    · exact countP_replicate_logged _ _ rfl
    · exact countP_replicate_logged _ _ rfl
  | false =>
    have hn : n = maxA := by
      rcases hterm with h | h
      · exact absurd h (by simp)
      · exact h
    rw [if_neg (by simp)]
    obtain ⟨pre, key, rec, post, hsplit, hpre, hpost, hprecb⟩ :=
      final_failure_split
        { base with attemptsMade := n, optsAttempts := maxA }
        (errMsg n) (cb n) (by show maxA ≤ n; omega)
    refine ⟨List.replicate (n - 1) WEvent.logged ++ pre, key, rec, post, ?_, ?_,
      hpost, ?_⟩
    · rw [hsplit, List.append_assoc]
    · rw [List.countP_append, hpre, countP_replicate_logged _ _ rfl]
    · rw [List.countP_append, hprecb, countP_replicate_logged _ _ rfl]

/-- Witness for C6: a batch job with a callback URL that fails all three
attempts (`n = maxA = 3`), the failure callback making two HTTP attempts. -/
theorem C6_one_result_write_before_callbacks_witness :
    ∃ pre key rec post,
      jobLifeEvents
        ⟨"job-1", ⟨"get_linkedin_profile", fun _ => JSVal.str "x", "r1",
          some "http://cb.example", some "batch_1"⟩, 0, 3⟩
        3 3 false JSVal.obj (fun _ => "AnySite API error: boom") (fun _ => 2)
        = pre ++ WEvent.resultWrite key rec :: post
      ∧ pre.countP (fun e => isResultWrite e) = 0
      ∧ post.countP (fun e => isResultWrite e) = 0
      ∧ pre.countP (fun e => isCallbackAttempt e) = 0 :=
  C6_one_result_write_before_callbacks
    ⟨"job-1", ⟨"get_linkedin_profile", fun _ => JSVal.str "x", "r1",
      some "http://cb.example", some "batch_1"⟩, 0, 3⟩
    3 3 false JSVal.obj (fun _ => "AnySite API error: boom") (fun _ => 2)
    (by decide) (by decide) (Or.inr rfl)

/-- C7: an accepted `POST /api/single` returns
`position = waiting + active + 1` and
`estimatedWaitSeconds = ceil(position · D / 1000)`, and an accepted
`POST /api/batch` returns
`estimatedCompletionSeconds = ceil(n_records · D / 1000)`, with the queue
counts taken from the stats at the time of the request; `jsCeilDiv` is
exactly the ceiling of the rational quotient. -/
theorem C7_position_and_estimates (D maxB : ℕ) (stats : QueueStats)
    (t : String) (p : Params) (rs : List Params)
    (ht : toolExists t = true) (h1 : 1 ≤ rs.length) (h2 : rs.length ≤ maxB) :
    handleSingle D stats (some t) (some p)
      = ⟨202, some (stats.waiting + stats.active + 1),
          some (jsCeilDiv ((stats.waiting + stats.active + 1) * D) 1000)⟩
    ∧ handleBatch maxB D (some t) (some rs)
      = ⟨202, rs.length, some (jsCeilDiv (rs.length * D) 1000)⟩
    ∧ ∀ a : ℕ, jsCeilDiv (a * D) 1000 = ⌈((a : ℚ) * (D : ℚ)) / 1000⌉ := by
  refine ⟨?_, ?_, ?_⟩
  · unfold handleSingle
    dsimp only
    rw [if_neg (by simp [ht])]
    rfl
  · unfold handleBatch
    dsimp only
    rw [if_neg (by omega), if_neg (by simp [ht])]
  · intro a
    unfold jsCeilDiv
    norm_num

/-- Witness for C7: one waiting and one active job, `D = 10000`, a
single-record batch of the first registry tool. -/
theorem C7_position_and_estimates_witness :
    handleSingle 10000 ⟨1, 1, 5, 0, 0⟩ (some "get_linkedin_profile")
        (some sampleParams)
      = ⟨202, some (1 + 1 + 1), some (jsCeilDiv ((1 + 1 + 1) * 10000) 1000)⟩
    ∧ handleBatch 2000 10000 (some "get_linkedin_profile")
        (some [sampleParams])
      = ⟨202, [sampleParams].length,
          some (jsCeilDiv ([sampleParams].length * 10000) 1000)⟩
    ∧ ∀ a : ℕ, jsCeilDiv (a * 10000) 1000 = ⌈((a : ℚ) * ((10000 : ℕ) : ℚ)) / 1000⌉ :=
  C7_position_and_estimates 10000 2000 ⟨1, 1, 5, 0, 0⟩ "get_linkedin_profile"
    sampleParams [sampleParams]
    (by decide) (by decide) (by decide)

/-- C8: `POST /api/batch` rejects empty record arrays and arrays longer
than `MAX_BATCH_SIZE` with HTTP 400, enqueuing nothing. -/
theorem C8_batch_bounds_rejected (maxB D : ℕ) (tool : Option String)
    (rs : List Params) (h : rs.length = 0 ∨ maxB < rs.length) :
    (handleBatch maxB D tool (some rs)).status = 400
    ∧ (handleBatch maxB D tool (some rs)).jobsEnqueued = 0 := by
  cases tool with
  | none => exact ⟨rfl, rfl⟩
  | some t =>
    unfold handleBatch
    dsimp only
    rw [if_pos (by omega)]
    exact ⟨rfl, rfl⟩

/-- Witness for C8: an empty `records` array at the default
`MAX_BATCH_SIZE` of 2000 is rejected with 400 and enqueues nothing. -/
theorem C8_batch_bounds_rejected_witness :
    (handleBatch defaultMaxBatchSize defaultDripIntervalMs
        (some "get_linkedin_profile") (some [])).status = 400
    ∧ (handleBatch defaultMaxBatchSize defaultDripIntervalMs
        (some "get_linkedin_profile") (some [])).jobsEnqueued = 0 :=
  C8_batch_bounds_rejected defaultMaxBatchSize defaultDripIntervalMs
    (some "get_linkedin_profile") [] (Or.inl rfl)

/-- C9 (scheduler modelled from the spec, see `dripStart`): consecutive
job starts are separated by at least the drip interval `D`, the next job
never starts before the previous one finishes, and at most one job is in
flight at any moment (every earlier job has finished by the time a later
one starts). -/
theorem C9_drip_schedule (D t0 : ℕ) (dur : ℕ → ℕ) (k j : ℕ) (hjk : j < k) :
    dripStart D t0 dur k + D ≤ dripStart D t0 dur (k + 1)
    ∧ dripFinish D t0 dur k ≤ dripStart D t0 dur (k + 1)
    ∧ dripFinish D t0 dur j ≤ dripStart D t0 dur k := by
  refine ⟨le_max_left _ _, le_max_right _ _, ?_⟩
  have hmono : Monotone (dripStart D t0 dur) :=
    monotone_nat_of_le_succ (fun m =>
      le_trans (Nat.le_add_right _ D) (le_max_left _ _))
  exact le_trans (le_max_right _ _) (hmono hjk)

/-- Witness for C9 at `D = 10000`, job durations 3000 ms, jobs 0 and 1. -/
theorem C9_drip_schedule_witness :
    dripStart 10000 0 (fun _ => 3000) 1 + 10000
        ≤ dripStart 10000 0 (fun _ => 3000) (1 + 1)
    ∧ dripFinish 10000 0 (fun _ => 3000) 1
        ≤ dripStart 10000 0 (fun _ => 3000) (1 + 1)
    ∧ dripFinish 10000 0 (fun _ => 3000) 0
        ≤ dripStart 10000 0 (fun _ => 3000) 1 :=
  C9_drip_schedule 10000 0 (fun _ => 3000) 1 0 (by decide)

/-- C10: with no `WEBHOOK_SECRET` configured, the authentication
middleware admits every request — for any path and any (present, absent,
empty, or arbitrary) `x-webhook-secret` header it calls `next()` and never
answers 401 or 403. -/
theorem C10_no_secret_admits_all (path : String)
    (providedSecret : Option String) :
    authenticateRequest none path providedSecret = AuthDecision.next := by
  unfold authenticateRequest
  split_ifs with h1 h2 <;> first | rfl | exact absurd rfl h2

end AnySignals
